import Mathlib

/-!
Shallow embedding of `hicexplorer/chicDifferentialTest.py`.

Python floats are modelled as `ℚ`.  The two scipy statistical routines
(`stats.chi2_contingency`, `stats.fisher_exact`) and the Python builtin
`float` are third-party code outside the repository; they are passed as
explicit function parameters (`chi2_contingency`, `fisher_exact`,
`parseFloat`), returning `none` where the Python call would raise
`ValueError`.  File contents are modelled as lists of lines; the value
returned by `writeResult` is the full string written to its output file.
-/

namespace ChicDifferentialTest

/-- A raw row: the tab-separated fields of one input line (`_line` in the source). -/
abbrev Row := List String

/-- One element of `test_result`: `(True, p)`, `(False, p)` or `(None, None)`. -/
abbrev TestResult := Option Bool × Option ℚ

/-- One element of a result bucket: `[line_content1[i], line_content2[i], p]`. -/
abbrev Triple := Row × Row × Option ℚ

/-- Python `str.strip()` on the character list of a line: whitespace removed
from both ends (`line.strip()` in `readInteractionFile`). -/
def pystrip (l : List Char) : List Char :=
  ((l.dropWhile Char.isWhitespace).reverse.dropWhile Char.isWhitespace).reverse

/-- Python `str.split(sep)` with an explicit one-character separator: splits at
every occurrence of `sep`, keeping empty segments (`.split('\t')` and
`.split('.')` in the source). -/
def pysplit (sep : Char) : List Char → List (List Char)
  | [] => [[]]
  | c :: cs =>
    if c = sep then [] :: pysplit sep cs
    else (c :: (pysplit sep cs).headD []) :: (pysplit sep cs).tail

/-- `line.strip().split('\t')` from `readInteractionFile`. -/
def splitFields (line : String) : List String :=
  (pysplit '\t' (pystrip line.data)).map String.mk

/-- The body of the read loop of `readInteractionFile`, over the lines after the
header.  A line whose stripped tab-split has at most one field is skipped
(`continue`); otherwise fields 9 and 12 are parsed as floats.  `none` models the
uncaught `IndexError`/`ValueError` the source raises when a required field is
missing or non-numeric (fatal: the whole read fails). -/
def readLines (parseFloat : String → Option ℚ) :
    List String → Option (List Row × List (ℚ × ℚ))
  | [] => some ([], [])
  | line :: rest =>
    if (splitFields line).length ≤ 1 then readLines parseFloat rest
    else
      match ((splitFields line).get? 9).bind parseFloat,
            ((splitFields line).get? 12).bind parseFloat with
      | some viewpoint, some target =>
        (readLines parseFloat rest).map
          (fun r => (splitFields line :: r.1, (viewpoint, target) :: r.2))
      | _, _ => none

/-- `readInteractionFile`: the first line is returned verbatim as the header
(Python `file.readline()` yields the empty string on an empty file), the
remaining lines are parsed by the read loop. -/
def readInteractionFile (parseFloat : String → Option ℚ) (fileLines : List String) :
    Option (String × List Row × List (ℚ × ℚ)) :=
  (readLines parseFloat fileLines.tail).map (fun r => (fileLines.headD "", r.1, r.2))

/-- `np.ceil([group1, group2])` from `fisher_exact_test`: the 2x2 table with
every cell rounded up to the nearest integer. -/
def npCeilTable (group1 group2 : ℚ × ℚ) : (ℤ × ℤ) × (ℤ × ℤ) :=
  ((⌈group1.1⌉, ⌈group1.2⌉), (⌈group2.1⌉, ⌈group2.2⌉))

/-- The body of the loop of `chisquare_test`, one step of the fold over
`zip(pDataFile1, pDataFile2)`.  The accumulator is `(test_result,
zero_values_counter)`.  `chi2_contingency` returns `some (chi2, p_value)` or
`none` for the `ValueError` branch; the comparison is `chi2 >= critical_value`. -/
def chi2Step (chi2_contingency : ℚ × ℚ → ℚ × ℚ → Option (ℚ × ℚ))
    (critical_value : ℚ) (acc : List TestResult × ℕ) (g : (ℚ × ℚ) × (ℚ × ℚ)) :
    List TestResult × ℕ :=
  match chi2_contingency g.1 g.2 with
  | some chi2P =>
    if critical_value ≤ chi2P.1 then (acc.1 ++ [(some true, some chi2P.2)], acc.2)
    else (acc.1 ++ [(some false, some chi2P.2)], acc.2)
  | none => (acc.1 ++ [(none, none)], acc.2 + 1)

/-- The verdict one chi2 loop iteration appends, as a standalone function. -/
def chi2Row (chi2_contingency : ℚ × ℚ → ℚ × ℚ → Option (ℚ × ℚ))
    (critical_value : ℚ) (g : (ℚ × ℚ) × (ℚ × ℚ)) : TestResult :=
  match chi2_contingency g.1 g.2 with
  | some chi2P =>
    if critical_value ≤ chi2P.1 then (some true, some chi2P.2)
    else (some false, some chi2P.2)
  | none => (none, none)

/-- `chisquare_test`: fold of `chi2Step` over the zipped data, starting from the
empty result list and a zero skip counter.  `critical_value` stands for the
precomputed `stats.chi2.ppf(q=1 - pAlpha, df=1)`. -/
def chisquare_test (chi2_contingency : ℚ × ℚ → ℚ × ℚ → Option (ℚ × ℚ))
    (pDataFile1 pDataFile2 : List (ℚ × ℚ)) (critical_value : ℚ) :
    List TestResult × ℕ :=
  (pDataFile1.zip pDataFile2).foldl (chi2Step chi2_contingency critical_value) ([], 0)

/-- The `log.info` call guarded by `zero_values_counter > 0` at the end of
`chisquare_test`: `some count` when the diagnostic is emitted, `none` otherwise. -/
def chisquare_log (chi2_contingency : ℚ × ℚ → ℚ × ℚ → Option (ℚ × ℚ))
    (pDataFile1 pDataFile2 : List (ℚ × ℚ)) (critical_value : ℚ) : Option ℕ :=
  if 0 < (chisquare_test chi2_contingency pDataFile1 pDataFile2 critical_value).2 then
    some (chisquare_test chi2_contingency pDataFile1 pDataFile2 critical_value).2
  else none

/-- The verdict one `fisher_exact_test` loop iteration appends: the test runs on
the ceiling-rounded table, `p_value <= pAlpha` classifies as rejected,
`ValueError` (`none`) as untested. -/
def fisherRow (fisher_exact : ℤ × ℤ → ℤ × ℤ → Option (ℚ × ℚ)) (pAlpha : ℚ)
    (g : (ℚ × ℚ) × (ℚ × ℚ)) : TestResult :=
  match fisher_exact (npCeilTable g.1 g.2).1 (npCeilTable g.1 g.2).2 with
  | some oddsP =>
    if oddsP.2 ≤ pAlpha then (some true, some oddsP.2)
    else (some false, some oddsP.2)
  | none => (none, none)

/-- `fisher_exact_test`: fold over `zip(pDataFile1, pDataFile2)` appending one
verdict per pair (`fisher_exact` returns `some (odds, p_value)` or `none` for
the `ValueError` branch). -/
def fisher_exact_test (fisher_exact : ℤ × ℤ → ℤ × ℤ → Option (ℚ × ℚ))
    (pDataFile1 pDataFile2 : List (ℚ × ℚ)) (pAlpha : ℚ) : List TestResult :=
  (pDataFile1.zip pDataFile2).foldl
    (fun acc g => acc ++ [fisherRow fisher_exact pAlpha g]) []

/-- The three result lists built in `main`. -/
structure ResultBuckets where
  rejected_h0 : List Triple
  non_rejected_h0 : List Triple
  not_tested : List Triple

/-- The body of the partition loop of `main`: `result[0] == True` appends to
`rejected_h0`, `== False` to `non_rejected_h0`, `is None` to `not_tested`
(which stores `None` as the third entry). -/
def partitionStep (b : ResultBuckets) (x : TestResult × (Row × Row)) : ResultBuckets :=
  match x.1.1 with
  | some true => { b with rejected_h0 := b.rejected_h0 ++ [(x.2.1, x.2.2, x.1.2)] }
  | some false => { b with non_rejected_h0 := b.non_rejected_h0 ++ [(x.2.1, x.2.2, x.1.2)] }
  | none => { b with not_tested := b.not_tested ++ [(x.2.1, x.2.2, (none : Option ℚ))] }

/-- The partition loop of `main`: `for i, result in enumerate(test_result)`
reading `line_content1[i]` and `line_content2[i]`.  Since `i` ranges below
`len(test_result)` and, in every run, `len(test_result) <=
min(len(line_content1), len(line_content2))`, the indexed loop coincides with
the fold over `test_result.zip (line_content1.zip line_content2)`. -/
def partitionResults (line_content1 line_content2 : List Row)
    (test_result : List TestResult) : ResultBuckets :=
  (test_result.zip (line_content1.zip line_content2)).foldl partitionStep ⟨[], [], []⟩

/-- Selector for the `rejected_h0` bucket, used to state the partition
characterization. -/
def selRejected (x : TestResult × (Row × Row)) : Option Triple :=
  match x.1.1 with
  | some true => some (x.2.1, x.2.2, x.1.2)
  | _ => none

/-- Selector for the `non_rejected_h0` bucket. -/
def selAccepted (x : TestResult × (Row × Row)) : Option Triple :=
  match x.1.1 with
  | some false => some (x.2.1, x.2.2, x.1.2)
  | _ => none

/-- Selector for the `not_tested` bucket. -/
def selUntested (x : TestResult × (Row × Row)) : Option Triple :=
  match x.1.1 with
  | none => some (x.2.1, x.2.2, (none : Option ℚ))
  | _ => none

/-- `hicexplorer._version.__version__`, imported by the source from outside this
file; its value is irrelevant to every claim. -/
def versionString : String := "3.6"

/-- The five digits after the decimal point of `format(x, '.5f')`, for the
already rounded and scaled nonnegative integer `n = |round(x * 100000)|`. -/
def fracDigits5 (n : ℕ) : String :=
  String.mk [Nat.digitChar (n / 10000 % 10), Nat.digitChar (n / 1000 % 10),
    Nat.digitChar (n / 100 % 10), Nat.digitChar (n / 10 % 10), Nat.digitChar (n % 10)]

/-- Python `format(x, '.5f')`: fixed-point rendering with exactly five digits
after the decimal point.  (Python rounds the binary double half-to-even; the
tie-breaking direction is immaterial to every claim, so `round` is used.) -/
def format5 (x : ℚ) : String :=
  (if round (x * 100000) < 0 then "-" else "")
    ++ toString ((round (x * 100000)).natAbs / 100000)
    ++ "." ++ fracDigits5 ((round (x * 100000)).natAbs % 100000)

/-- The lines (without terminators) one triple contributes inside the data part
of `writeResult`: record A tab-joined, record B tab-joined, and the formatted
p-value when present. -/
def resultBlockLines (data : Triple) : List String :=
  match data.2.2 with
  | some p =>
    [String.intercalate "\t" data.1, String.intercalate "\t" data.2.1, format5 p]
  | none => [String.intercalate "\t" data.1, String.intercalate "\t" data.2.1]

/-- The exact string the body loop of `writeResult` writes for one triple: the
two `file.write` calls of one iteration (`'\t'.join(...) + '\n' + ... ` then the
terminating `'\n'`). -/
def resultBlockStr (data : Triple) : String :=
  match data.2.2 with
  | some p =>
    String.intercalate "\t" data.1 ++ "\n" ++ String.intercalate "\t" data.2.1
      ++ "\n" ++ format5 p ++ "\n" ++ "\n"
  | none =>
    String.intercalate "\t" data.1 ++ "\n" ++ String.intercalate "\t" data.2.1
      ++ "\n" ++ "\n"

/-- Total number of block lines (excluding the blank terminators) contributed by
one bucket. -/
def tripleBlockLineCount (bucket : List Triple) : ℕ :=
  (bucket.map (fun data => (resultBlockLines data).length)).sum

/-- `writeResult`: the full string written to the output file, built exactly as
in the source (comment header, then `pHeaderOld` verbatim, then one block per
triple).  `pHeaderNew` is a parameter of the source function as well. -/
def writeResult (pData : List Triple) (pRejected : Option Bool)
    (pHeaderOld pHeaderNew : String) (pViewpoint1 pViewpoint2 : List String)
    (pAlpha : ℚ) (pTest : String) : String :=
  "# Differential analysis result file of HiCExplorer\x27s chicDifferentialTest version "
    ++ versionString ++ "\n"
    ++ (match pRejected with
        | some true =>
          "# This file contains the regions accepted as differential by "
            ++ pTest ++ " test (H0 was rejected) \n"
        | some false =>
          "# This file contains the regions rejected as differential by "
            ++ pTest ++ " test (H0 was accepted) \n"
        | none =>
          "# This file contains the regions which were not tested because of violation of "
            ++ pTest ++ " test input conditions\n")
    ++ String.intercalate " " ["# Used viewpoints regions: ",
          String.intercalate " " pViewpoint1, " and ",
          String.intercalate " " pViewpoint2, "\n"]
    ++ "#\n"
    ++ "# Line 1 of a group contains data of viewpoint and target of sample 1, line 2 contains data of viewpoint and target of sample 2 \n"
    ++ "# line 3 the p-value of the chi-squared contingency test.\n"
    ++ "#\n"
    ++ String.intercalate " " ["# Alpha level", toString pAlpha] ++ "\n"
    ++ String.intercalate " " ["# Degrees of freedom", "1"] ++ "\n"
    ++ "\n"
    ++ "\n\n"
    ++ pHeaderOld
    ++ String.join (pData.map resultBlockStr)

/-- The derivation of the three output paths in `main`:
`outFileName.split('.')[0]` concatenated with each suffix. -/
def outPaths (outFileName : String) : String × String × String :=
  (String.mk ((pysplit '.' outFileName.data).headD []) ++ "_rejected_H0.bed",
   String.mk ((pysplit '.' outFileName.data).headD []) ++ "_accepted_H0.bed",
   String.mk ((pysplit '.' outFileName.data).headD []) ++ "_no_test.bed")

/-- The `--statisticTest` choice. -/
inductive StatTest
  | fisher
  | chi2

/-- The string value of `args.statisticTest` passed to `writeResult` as `pTest`. -/
def StatTest.asString : StatTest → String
  | StatTest.fisher => "fisher"
  | StatTest.chi2 => "chi2"

/-- `main` after argument parsing: reads both files, runs the selected test,
partitions, derives the output names and produces the three `(path, content)`
pairs in write order.  `none` models an uncaught exception: a fatal read error,
or the `IndexError` raised while evaluating `line_content1[0][:4]` /
`line_content2[0][:4]` in the argument list of the first `writeResult` call,
which in the source happens before any output file is opened. -/
def main (parseFloat : String → Option ℚ)
    (chi2_contingency : ℚ × ℚ → ℚ × ℚ → Option (ℚ × ℚ))
    (fisher_exact : ℤ × ℤ → ℤ × ℤ → Option (ℚ × ℚ))
    (critical_value : ℚ) (statisticTest : StatTest) (alpha : ℚ)
    (fileLines1 fileLines2 : List String) (outFileName : String) :
    Option (List (String × String)) :=
  match readInteractionFile parseFloat fileLines1,
        readInteractionFile parseFloat fileLines2 with
  | some (header1, line_content1, data1), some (header2, line_content2, data2) =>
    let test_result :=
      match statisticTest with
      | StatTest.chi2 => (chisquare_test chi2_contingency data1 data2 critical_value).1
      | StatTest.fisher => fisher_exact_test fisher_exact data1 data2 alpha
    let buckets := partitionResults line_content1 line_content2 test_result
    match line_content1.get? 0, line_content2.get? 0 with
    | some row1, some row2 =>
      some [((outPaths outFileName).1,
             writeResult buckets.rejected_h0 (some true) header1 header2
               (row1.take 4) (row2.take 4) alpha statisticTest.asString),
            ((outPaths outFileName).2.1,
             writeResult buckets.non_rejected_h0 (some false) header1 header2
               (row1.take 4) (row2.take 4) alpha statisticTest.asString),
            ((outPaths outFileName).2.2,
             writeResult buckets.not_tested none header1 header2
               (row1.take 4) (row2.take 4) alpha statisticTest.asString)]
    | _, _ => none
  | _, _ => none

/-! ## Helper lemmas -/

theorem pysplit_ne_nil (sep : Char) : ∀ l : List Char, pysplit sep l ≠ []
  | [] => by simp [pysplit]
  | c :: cs => by
    by_cases h : c = sep <;> simp [pysplit, h]

theorem pysplit_headD (sep : Char) :
    ∀ l : List Char, (pysplit sep l).headD [] = l.takeWhile (fun c => decide (¬ c = sep))
  | [] => rfl
  | c :: cs => by
    by_cases h : c = sep
    · simp [pysplit, h, List.takeWhile_cons]
    · rw [pysplit, if_neg h, List.headD_cons, pysplit_headD sep cs, List.takeWhile_cons]
      simp [h]

theorem chi2Step_eq (chi2_contingency : ℚ × ℚ → ℚ × ℚ → Option (ℚ × ℚ))
    (critical_value : ℚ) (acc : List TestResult × ℕ) (g : (ℚ × ℚ) × (ℚ × ℚ)) :
    chi2Step chi2_contingency critical_value acc g =
      (acc.1 ++ [chi2Row chi2_contingency critical_value g],
       acc.2 + if (chi2_contingency g.1 g.2).isNone then 1 else 0) := by
  unfold chi2Step chi2Row
  cases h : chi2_contingency g.1 g.2 with
  | none => simp [h]
  | some chi2P => by_cases hc : critical_value ≤ chi2P.1 <;> simp [h, hc]

theorem chisquare_foldl (chi2_contingency : ℚ × ℚ → ℚ × ℚ → Option (ℚ × ℚ))
    (critical_value : ℚ) :
    ∀ (l : List ((ℚ × ℚ) × (ℚ × ℚ))) (a : List TestResult) (n : ℕ),
      l.foldl (chi2Step chi2_contingency critical_value) (a, n) =
        (a ++ l.map (chi2Row chi2_contingency critical_value),
         n + l.countP fun g => (chi2_contingency g.1 g.2).isNone)
  | [], a, n => by simp
  | g :: l, a, n => by
    rw [List.foldl_cons, chi2Step_eq,
      chisquare_foldl chi2_contingency critical_value l]
    by_cases h : (chi2_contingency g.1 g.2).isNone <;>
      simp [List.countP_cons, h] <;> omega

theorem chisquare_test_eq (chi2_contingency : ℚ × ℚ → ℚ × ℚ → Option (ℚ × ℚ))
    (pDataFile1 pDataFile2 : List (ℚ × ℚ)) (critical_value : ℚ) :
    chisquare_test chi2_contingency pDataFile1 pDataFile2 critical_value =
      ((pDataFile1.zip pDataFile2).map (chi2Row chi2_contingency critical_value),
       (pDataFile1.zip pDataFile2).countP
         fun g => (chi2_contingency g.1 g.2).isNone) := by
  unfold chisquare_test
  rw [chisquare_foldl]
  simp

theorem fisher_foldl (fisher_exact : ℤ × ℤ → ℤ × ℤ → Option (ℚ × ℚ)) (pAlpha : ℚ) :
    ∀ (l : List ((ℚ × ℚ) × (ℚ × ℚ))) (a : List TestResult),
      l.foldl (fun acc g => acc ++ [fisherRow fisher_exact pAlpha g]) a =
        a ++ l.map (fisherRow fisher_exact pAlpha)
  | [], a => by simp
  | g :: l, a => by
    rw [List.foldl_cons, fisher_foldl fisher_exact pAlpha l]
    simp

theorem fisher_exact_test_eq (fisher_exact : ℤ × ℤ → ℤ × ℤ → Option (ℚ × ℚ))
    (pDataFile1 pDataFile2 : List (ℚ × ℚ)) (pAlpha : ℚ) :
    fisher_exact_test fisher_exact pDataFile1 pDataFile2 pAlpha =
      (pDataFile1.zip pDataFile2).map (fisherRow fisher_exact pAlpha) := by
  unfold fisher_exact_test
  rw [fisher_foldl]
  simp

theorem partition_foldl :
    ∀ (l : List (TestResult × (Row × Row))) (b : ResultBuckets),
      l.foldl partitionStep b =
        ⟨b.rejected_h0 ++ l.filterMap selRejected,
         b.non_rejected_h0 ++ l.filterMap selAccepted,
         b.not_tested ++ l.filterMap selUntested⟩
  | [], b => by simp
  | x :: l, b => by
    rw [List.foldl_cons, partition_foldl l (partitionStep b x)]
    rcases x with ⟨⟨v, p⟩, r1, r2⟩
    rcases v with _ | v
    · simp [partitionStep, selRejected, selAccepted, selUntested]
    · rcases v <;> simp [partitionStep, selRejected, selAccepted, selUntested]

theorem sel_length_sum :
    ∀ l : List (TestResult × (Row × Row)),
      (l.filterMap selRejected).length + (l.filterMap selAccepted).length +
          (l.filterMap selUntested).length = l.length
  | [] => rfl
  | x :: l => by
    have ih := sel_length_sum l
    rcases x with ⟨⟨v, p⟩, r⟩
    rcases v with _ | v
    · simp [selRejected, selAccepted, selUntested]
      omega
    · rcases v <;> simp [selRejected, selAccepted, selUntested] <;> omega

theorem countP_zip_left {α β : Type _} (p : α → Bool) :
    ∀ (l1 : List α) (l2 : List β), l1.length = l2.length →
      (l1.zip l2).countP (fun x => p x.1) = l1.countP p
  | [], l2, _ => by simp
  | a :: l1, [], h => by simp at h
  | a :: l1, b :: l2, h => by
    have ih := countP_zip_left p l1 l2 (by simpa using h)
    simp [List.zip_cons_cons, List.countP_cons, ih]

theorem partitionResults_eq (line_content1 line_content2 : List Row)
    (test_result : List TestResult) :
    partitionResults line_content1 line_content2 test_result =
      ⟨(test_result.zip (line_content1.zip line_content2)).filterMap selRejected,
       (test_result.zip (line_content1.zip line_content2)).filterMap selAccepted,
       (test_result.zip (line_content1.zip line_content2)).filterMap selUntested⟩ := by
  unfold partitionResults
  rw [partition_foldl]
  simp

theorem takeWhile_append_stop {α : Type _} (p : α → Bool) :
    ∀ (xs : List α) (y : α) (ys : List α), (∀ x ∈ xs, p x = true) → p y = false →
      (xs ++ y :: ys).takeWhile p = xs
  | [], y, ys, _, hy => by simp [List.takeWhile_cons, hy]
  | x :: xs, y, ys, hall, hy => by
    have hx : p x = true := hall x (List.mem_cons_self x xs)
    have ih := takeWhile_append_stop p xs y ys
      (fun a ha => hall a (List.mem_cons_of_mem x ha)) hy
    simp [List.takeWhile_cons, hx, ih]

theorem digitChar_mod_ne_dot (n : ℕ) : (Nat.digitChar (n % 10) != '.') = true := by
  have hd : ∀ d, d < 10 → (Nat.digitChar d != '.') = true := by decide
  exact hd _ (Nat.mod_lt _ (by norm_num))

theorem after_dot_five (s1 : String) (cs : List Char)
    (hlen : cs.length = 5) (hcs : ∀ c ∈ cs, (c != '.') = true) :
    (((s1 ++ "." ++ String.mk cs).data.reverse.takeWhile (fun c => c != '.'))).length
      = 5 := by
  simp only [String.data_append]
  rw [List.append_assoc]
  have hrev : (s1.data ++ (['.'] ++ cs)).reverse
      = cs.reverse ++ '.' :: s1.data.reverse := by
    rw [List.reverse_append, List.reverse_append]
    simp
  rw [hrev, takeWhile_append_stop (fun c => c != '.') cs.reverse '.' s1.data.reverse
    (fun c hc => hcs c (List.mem_reverse.mp hc)) rfl]
  rw [List.length_reverse, hlen]

theorem format5_five_decimals (x : ℚ) :
    ((format5 x).data.reverse.takeWhile (fun c => c != '.')).length = 5 := by
  unfold format5 fracDigits5
  refine after_dot_five _ _ rfl ?_
  intro c hc
  simp only [List.mem_cons, List.not_mem_nil, or_false] at hc
  rcases hc with h | h | h | h | h <;> subst h <;> exact digitChar_mod_ne_dot _

theorem block_count_core :
    ∀ l : List (TestResult × (Row × Row)),
      (∀ x ∈ l, x.1.1.isSome = x.1.2.isSome) →
      tripleBlockLineCount (l.filterMap selRejected) +
          tripleBlockLineCount (l.filterMap selAccepted) +
          tripleBlockLineCount (l.filterMap selUntested)
        = 2 * l.length + l.countP (fun x => x.1.1.isSome)
  | [], _ => rfl
  | x :: l, hall => by
    have ih := block_count_core l (fun y hy => hall y (List.mem_cons_of_mem x hy))
    have hx := hall x (List.mem_cons_self x l)
    rcases x with ⟨⟨v, p⟩, r1, r2⟩
    rcases v with _ | v
    · simp only [Option.isSome_none, Option.isSome] at hx
      simp [selRejected, selAccepted, selUntested, tripleBlockLineCount,
        List.countP_cons, resultBlockLines] at ih ⊢
      omega
    · have hps : p.isSome = true := by simpa using hx.symm
      obtain ⟨q, hq⟩ := Option.isSome_iff_exists.mp hps
      subst hq
      rcases v <;>
        · simp [selRejected, selAccepted, selUntested, tripleBlockLineCount,
            List.countP_cons, resultBlockLines] at ih ⊢
          omega

theorem countP_isSome_zip (tr : List TestResult) (l2 : List (Row × Row))
    (h : tr.length = l2.length) :
    (tr.zip l2).countP (fun x => x.1.1.isSome) = tr.countP (fun r => r.1.isSome) :=
  countP_zip_left (fun r => r.1.isSome) tr l2 h

/-! ## Claim theorems -/

/-- C1 counterexample: the source derives the output base by
`outFileName.split('.')[0]`, taking everything before the FIRST dot, so
`run.v2.bed` yields base `run`, not `run.v2` as the claim states. -/
theorem outPaths_counterexample :
    (outPaths "run.v2.bed").1 = "run_rejected_H0.bed" ∧
    (outPaths "run.v2.bed").1 ≠ "run.v2_rejected_H0.bed" ∧
    (outPaths "run.v2.bed").2.1 = "run_accepted_H0.bed" ∧
    (outPaths "run.v2.bed").2.2 = "run_no_test.bed" := by
  refine ⟨?_, ?_, ?_, ?_⟩ <;> decide

/-- C1 (amended): for every outFileName the three derived output paths are
`base + "_rejected_H0.bed"`, `base + "_accepted_H0.bed"`, `base + "_no_test.bed"`
where `base` is the portion of outFileName strictly before its first dot
(its longest dot-free prefix), not the name with only the last extension
segment removed. -/
theorem outPaths_first_segment (s : String) :
    outPaths s =
      (String.mk (s.data.takeWhile (fun c => decide (¬ c = '.'))) ++ "_rejected_H0.bed",
       String.mk (s.data.takeWhile (fun c => decide (¬ c = '.'))) ++ "_accepted_H0.bed",
       String.mk (s.data.takeWhile (fun c => decide (¬ c = '.'))) ++ "_no_test.bed") := by
  unfold outPaths
  rw [pysplit_headD]

/-- C2: boundary comparisons are inclusive toward rejection.  If the chi2
statistic returned for row `i` is exactly the critical value, the verdict is
`(True, p)` (the comparison in the source is `>=`); if the Fisher p-value for
row `i` is exactly alpha, the verdict is `(True, p)` (the comparison is `<=`). -/
theorem boundary_inclusive :
    (∀ (chi2_contingency : ℚ × ℚ → ℚ × ℚ → Option (ℚ × ℚ))
        (d1 d2 : List (ℚ × ℚ)) (critical_value p : ℚ) (i : ℕ)
        (g : (ℚ × ℚ) × (ℚ × ℚ)),
      (d1.zip d2).get? i = some g →
      chi2_contingency g.1 g.2 = some (critical_value, p) →
      (chisquare_test chi2_contingency d1 d2 critical_value).1.get? i
        = some (some true, some p)) ∧
    (∀ (fisher_exact : ℤ × ℤ → ℤ × ℤ → Option (ℚ × ℚ))
        (d1 d2 : List (ℚ × ℚ)) (pAlpha odds : ℚ) (i : ℕ)
        (g : (ℚ × ℚ) × (ℚ × ℚ)),
      (d1.zip d2).get? i = some g →
      fisher_exact (npCeilTable g.1 g.2).1 (npCeilTable g.1 g.2).2 = some (odds, pAlpha) →
      (fisher_exact_test fisher_exact d1 d2 pAlpha).get? i
        = some (some true, some pAlpha)) := by
  constructor
  · intro chi2c d1 d2 cv p i g hg hc
    rw [chisquare_test_eq]
    rw [List.get?_map, hg]
    simp [chi2Row, hc]
  · intro fc d1 d2 pAlpha odds i g hg hf
    rw [fisher_exact_test_eq]
    rw [List.get?_map, hg]
    simp [fisherRow, hf]

/-- C2 witness: concrete single-row runs where the statistic equals the
critical value (chi2) and the p-value equals alpha (Fisher); both are
classified Rejected. -/
theorem boundary_inclusive_w :
    (chisquare_test (fun _ _ => some (5, 1/2)) [((1 : ℚ), 1)] [((1 : ℚ), 1)] 5).1.get? 0
      = some (some true, some ((1 : ℚ)/2)) ∧
    (fisher_exact_test (fun _ _ => some (1, 1/20)) [((1 : ℚ), 1)] [((1 : ℚ), 1)] (1/20)).get? 0
      = some (some true, some ((1 : ℚ)/20)) :=
  ⟨boundary_inclusive.1 (fun _ _ => some (5, 1/2)) [((1 : ℚ), 1)] [((1 : ℚ), 1)]
      5 (1/2) 0 ((1, 1), (1, 1)) rfl rfl,
   boundary_inclusive.2 (fun _ _ => some (1, 1/20)) [((1 : ℚ), 1)] [((1 : ℚ), 1)]
      (1/20) 1 0 ((1, 1), (1, 1)) rfl rfl⟩

/-- C7: on unequal-length inputs both strategies silently truncate to the
shorter sequence via zipping: the verdict list has length
`min (length d1) (length d2)`. -/
theorem verdicts_length_min :
    ∀ (chi2_contingency : ℚ × ℚ → ℚ × ℚ → Option (ℚ × ℚ))
      (fisher_exact : ℤ × ℤ → ℤ × ℤ → Option (ℚ × ℚ))
      (d1 d2 : List (ℚ × ℚ)) (critical_value pAlpha : ℚ),
      (chisquare_test chi2_contingency d1 d2 critical_value).1.length
          = min d1.length d2.length ∧
      (fisher_exact_test fisher_exact d1 d2 pAlpha).length
          = min d1.length d2.length := by
  intro chi2c fc d1 d2 cv pAlpha
  rw [chisquare_test_eq, fisher_exact_test_eq]
  simp [List.length_zip]

/-- C10: the string produced by `writeResult` does not depend on the
`pHeaderNew` argument: two calls differing only in `pHeaderNew` produce
identical file contents; only `pHeaderOld` is emitted. -/
theorem writeResult_ignores_pHeaderNew :
    ∀ (pData : List Triple) (pRejected : Option Bool)
      (pHeaderOld pHeaderNew pHeaderNew' : String)
      (pViewpoint1 pViewpoint2 : List String) (pAlpha : ℚ) (pTest : String),
      writeResult pData pRejected pHeaderOld pHeaderNew pViewpoint1 pViewpoint2
          pAlpha pTest
        = writeResult pData pRejected pHeaderOld pHeaderNew' pViewpoint1 pViewpoint2
          pAlpha pTest := by
  intros
  rfl

/-- C3: with equal-length inputs every row index receives exactly one verdict:
the three bucket sizes sum to the number of rows, and each bucket is the stable
(index-ordered) selection of the rows with the matching verdict. -/
theorem partition_exactly_one (line_content1 line_content2 : List Row)
    (test_result : List TestResult)
    (h1 : line_content1.length = test_result.length)
    (h2 : line_content2.length = test_result.length) :
    (partitionResults line_content1 line_content2 test_result).rejected_h0.length +
        (partitionResults line_content1 line_content2 test_result).non_rejected_h0.length +
        (partitionResults line_content1 line_content2 test_result).not_tested.length
      = test_result.length ∧
    (partitionResults line_content1 line_content2 test_result).rejected_h0 =
      (test_result.zip (line_content1.zip line_content2)).filterMap selRejected ∧
    (partitionResults line_content1 line_content2 test_result).non_rejected_h0 =
      (test_result.zip (line_content1.zip line_content2)).filterMap selAccepted ∧
    (partitionResults line_content1 line_content2 test_result).not_tested =
      (test_result.zip (line_content1.zip line_content2)).filterMap selUntested := by
  rw [partitionResults_eq]
  refine ⟨?_, rfl, rfl, rfl⟩
  rw [sel_length_sum]
  rw [List.length_zip, List.length_zip]
  omega

/-- C3 witness: a concrete three-row run with one Rejected, one Accepted and
one Untested verdict; sizes sum to 3 and each bucket is the stable selection. -/
theorem partition_exactly_one_w :
    (partitionResults [["a"], ["b"], ["c"]] [["d"], ["e"], ["f"]]
          [(some true, some (1 : ℚ)), (some false, some (1 : ℚ)), (none, none)]).rejected_h0.length +
        (partitionResults [["a"], ["b"], ["c"]] [["d"], ["e"], ["f"]]
          [(some true, some (1 : ℚ)), (some false, some (1 : ℚ)), (none, none)]).non_rejected_h0.length +
        (partitionResults [["a"], ["b"], ["c"]] [["d"], ["e"], ["f"]]
          [(some true, some (1 : ℚ)), (some false, some (1 : ℚ)), (none, none)]).not_tested.length
      = 3 ∧
    (partitionResults [["a"], ["b"], ["c"]] [["d"], ["e"], ["f"]]
        [(some true, some (1 : ℚ)), (some false, some (1 : ℚ)), (none, none)]).rejected_h0 =
      ([(some true, some (1 : ℚ)), (some false, some (1 : ℚ)), (none, none)].zip
        ([["a"], ["b"], ["c"]].zip [["d"], ["e"], ["f"]])).filterMap selRejected ∧
    (partitionResults [["a"], ["b"], ["c"]] [["d"], ["e"], ["f"]]
        [(some true, some (1 : ℚ)), (some false, some (1 : ℚ)), (none, none)]).non_rejected_h0 =
      ([(some true, some (1 : ℚ)), (some false, some (1 : ℚ)), (none, none)].zip
        ([["a"], ["b"], ["c"]].zip [["d"], ["e"], ["f"]])).filterMap selAccepted ∧
    (partitionResults [["a"], ["b"], ["c"]] [["d"], ["e"], ["f"]]
        [(some true, some (1 : ℚ)), (some false, some (1 : ℚ)), (none, none)]).not_tested =
      ([(some true, some (1 : ℚ)), (some false, some (1 : ℚ)), (none, none)].zip
        ([["a"], ["b"], ["c"]].zip [["d"], ["e"], ["f"]])).filterMap selUntested :=
  partition_exactly_one [["a"], ["b"], ["c"]] [["d"], ["e"], ["f"]]
    [(some true, some (1 : ℚ)), (some false, some (1 : ℚ)), (none, none)] rfl rfl

/-- C4: in the chi2 strategy a row whose contingency table makes the test
undefined (scipy raises ValueError, modelled as `chi2_contingency` returning
`none`, e.g. a row or column summing to zero) yields verdict `(None, None)`
(Untested, no p-value), does not abort the batch (the verdict list still covers
every zipped row), the skip counter counts exactly the undefined rows (so this
row contributes exactly once) and is positive, and the end-of-run diagnostic
carrying the count is emitted precisely because the counter is nonzero. -/
theorem chi2_degenerate_untested
    (chi2_contingency : ℚ × ℚ → ℚ × ℚ → Option (ℚ × ℚ))
    (d1 d2 : List (ℚ × ℚ)) (critical_value : ℚ) (i : ℕ)
    (g : (ℚ × ℚ) × (ℚ × ℚ))
    (hg : (d1.zip d2).get? i = some g)
    (hdeg : chi2_contingency g.1 g.2 = none) :
    (chisquare_test chi2_contingency d1 d2 critical_value).1.get? i
        = some ((none : Option Bool), (none : Option ℚ)) ∧
    (chisquare_test chi2_contingency d1 d2 critical_value).1.length
        = (d1.zip d2).length ∧
    (chisquare_test chi2_contingency d1 d2 critical_value).2
        = (d1.zip d2).countP (fun x => (chi2_contingency x.1 x.2).isNone) ∧
    0 < (chisquare_test chi2_contingency d1 d2 critical_value).2 ∧
    chisquare_log chi2_contingency d1 d2 critical_value
        = some (chisquare_test chi2_contingency d1 d2 critical_value).2 ∧
    (chisquare_log chi2_contingency d1 d2 critical_value = none ↔
      (chisquare_test chi2_contingency d1 d2 critical_value).2 = 0) := by
  have hpos : 0 < (chisquare_test chi2_contingency d1 d2 critical_value).2 := by
    rw [chisquare_test_eq]
    refine List.countP_pos_iff.mpr ⟨g, List.get?_mem hg, ?_⟩
    rw [hdeg]
    rfl
  refine ⟨?_, ?_, ?_, hpos, ?_, ?_⟩
  · rw [chisquare_test_eq]
    rw [List.get?_map, hg]
    simp [chi2Row, hdeg]
  · rw [chisquare_test_eq]
    simp
  · rw [chisquare_test_eq]
  · unfold chisquare_log
    rw [if_pos hpos]
  · unfold chisquare_log
    rw [if_pos hpos]
    simp
    omega

/-- C4 witness: the spec example row `[[0, 0], [5, 5]]` with an oracle that
reports the test undefined: Untested verdict, counter 1, diagnostic emitted. -/
theorem chi2_degenerate_untested_w :
    (chisquare_test (fun _ _ => none) [((0 : ℚ), 0)] [((5 : ℚ), 5)] 0).1.get? 0
        = some ((none : Option Bool), (none : Option ℚ)) ∧
    (chisquare_test (fun _ _ => none) [((0 : ℚ), 0)] [((5 : ℚ), 5)] 0).1.length
        = ([((0 : ℚ), 0)].zip [((5 : ℚ), 5)]).length ∧
    (chisquare_test (fun _ _ => none) [((0 : ℚ), 0)] [((5 : ℚ), 5)] 0).2
        = ([((0 : ℚ), 0)].zip [((5 : ℚ), 5)]).countP
            (fun x => ((fun (_ _ : ℚ × ℚ) => (none : Option (ℚ × ℚ))) x.1 x.2).isNone) ∧
    0 < (chisquare_test (fun _ _ => none) [((0 : ℚ), 0)] [((5 : ℚ), 5)] 0).2 ∧
    chisquare_log (fun _ _ => none) [((0 : ℚ), 0)] [((5 : ℚ), 5)] 0
        = some (chisquare_test (fun _ _ => none) [((0 : ℚ), 0)] [((5 : ℚ), 5)] 0).2 ∧
    (chisquare_log (fun _ _ => none) [((0 : ℚ), 0)] [((5 : ℚ), 5)] 0 = none ↔
      (chisquare_test (fun _ _ => none) [((0 : ℚ), 0)] [((5 : ℚ), 5)] 0).2 = 0) :=
  chi2_degenerate_untested (fun _ _ => none) [((0 : ℚ), 0)] [((5 : ℚ), 5)] 0 0
    (((0 : ℚ), (0 : ℚ)), ((5 : ℚ), (5 : ℚ))) rfl rfl

/-- C5: in the Fisher strategy each of the four cells of the 2x2 table handed
to the test is the value rounded UP to the nearest integer: each cell is an
integer upper bound of its cell value and is the least such integer (so never
truncation or round-to-nearest); on the spec example `(1.2, 1.2)` and
`(10.8, 1.1)` the table is `[[2, 2], [11, 2]]`. -/
theorem fisher_ceiling :
    (∀ group1 group2 : ℚ × ℚ,
      (group1.1 ≤ ((npCeilTable group1 group2).1.1 : ℚ) ∧
        ∀ z : ℤ, group1.1 ≤ (z : ℚ) → (npCeilTable group1 group2).1.1 ≤ z) ∧
      (group1.2 ≤ ((npCeilTable group1 group2).1.2 : ℚ) ∧
        ∀ z : ℤ, group1.2 ≤ (z : ℚ) → (npCeilTable group1 group2).1.2 ≤ z) ∧
      (group2.1 ≤ ((npCeilTable group1 group2).2.1 : ℚ) ∧
        ∀ z : ℤ, group2.1 ≤ (z : ℚ) → (npCeilTable group1 group2).2.1 ≤ z) ∧
      (group2.2 ≤ ((npCeilTable group1 group2).2.2 : ℚ) ∧
        ∀ z : ℤ, group2.2 ≤ (z : ℚ) → (npCeilTable group1 group2).2.2 ≤ z)) ∧
    npCeilTable (1.2, 1.2) (10.8, 1.1) = ((2, 2), (11, 2)) := by
  constructor
  · intro group1 group2
    exact ⟨⟨Int.le_ceil _, fun z hz => Int.ceil_le.mpr hz⟩,
           ⟨Int.le_ceil _, fun z hz => Int.ceil_le.mpr hz⟩,
           ⟨Int.le_ceil _, fun z hz => Int.ceil_le.mpr hz⟩,
           ⟨Int.le_ceil _, fun z hz => Int.ceil_le.mpr hz⟩⟩
  · have h1 : ⌈(1.2 : ℚ)⌉ = (2 : ℤ) := by
      rw [Int.ceil_eq_iff]
      norm_num
    have h2 : ⌈(10.8 : ℚ)⌉ = (11 : ℤ) := by
      rw [Int.ceil_eq_iff]
      norm_num
    have h3 : ⌈(1.1 : ℚ)⌉ = (2 : ℤ) := by
      rw [Int.ceil_eq_iff]
      norm_num
    simp [npCeilTable, h1, h2, h3]

/-- C5 witness: the first cell of the spec example is an upper bound of 1.2,
is at most the integer bound 2, and the whole table is `[[2, 2], [11, 2]]`. -/
theorem fisher_ceiling_w :
    ((1.2 : ℚ) ≤ ((npCeilTable (1.2, 1.2) (10.8, 1.1)).1.1 : ℚ)) ∧
    (npCeilTable (1.2, 1.2) (10.8, 1.1)).1.1 ≤ (2 : ℤ) ∧
    npCeilTable (1.2, 1.2) (10.8, 1.1) = ((2, 2), (11, 2)) :=
  ⟨(fisher_ceiling.1 (1.2, 1.2) (10.8, 1.1)).1.1,
   (fisher_ceiling.1 (1.2, 1.2) (10.8, 1.1)).1.2 2
     (by show (1.2 : ℚ) ≤ ((2 : ℤ) : ℚ); norm_num),
   fisher_ceiling.2⟩

/-- C8: the read loop skips (as blank) any line whose stripped tab-split has at
most one field, and fails fatally (the whole read returns `none`, not a skipped
row) on any non-blank line whose field at index 9 or 12 is missing or does not
parse as a float. -/
theorem reader_skip_and_fatal :
    (∀ (parseFloat : String → Option ℚ) (line : String) (rest : List String),
      (splitFields line).length ≤ 1 →
      readLines parseFloat (line :: rest) = readLines parseFloat rest) ∧
    (∀ (parseFloat : String → Option ℚ) (line : String) (rest : List String),
      ¬ (splitFields line).length ≤ 1 →
      (((splitFields line).get? 9).bind parseFloat = none ∨
        ((splitFields line).get? 12).bind parseFloat = none) →
      readLines parseFloat (line :: rest) = none) := by
  constructor
  · intro parseFloat line rest h
    simp only [readLines]
    rw [if_pos h]
  · intro parseFloat line rest h hor
    simp only [readLines]
    rw [if_neg h]
    rcases hor with h9 | h12
    · rw [h9]
    · rw [h12]
      cases h9x : ((splitFields line).get? 9).bind parseFloat <;> rfl

/-- C8 witness: a whitespace-only line is skipped; a two-field line (no field
at index 9) makes the whole read fail. -/
theorem reader_skip_and_fatal_w :
    readLines (fun _ => some 0) [" "] = readLines (fun _ => some 0) ([] : List String) ∧
    readLines (fun _ => some 0) ["a\tb"] = none :=
  ⟨reader_skip_and_fatal.1 (fun _ => some 0) " " [] (by decide),
   reader_skip_and_fatal.2 (fun _ => some 0) "a\tb" [] (by decide) (Or.inl (by decide))⟩

/-- C9: when either input parses to a header with zero data rows, `main` fails
(the `IndexError` from `line_content[0][:4]`, modelled as `none`) before
producing any output pair, although reading an empty body and both decision
strategies on empty sequences succeed. -/
theorem empty_rows_fatal
    (parseFloat : String → Option ℚ)
    (chi2_contingency : ℚ × ℚ → ℚ × ℚ → Option (ℚ × ℚ))
    (fisher_exact : ℤ × ℤ → ℤ × ℤ → Option (ℚ × ℚ))
    (critical_value alpha : ℚ) (statisticTest : StatTest)
    (fileLines1 fileLines2 : List String) (outFileName : String)
    (header1 header2 : String) (lc1 lc2 : List Row) (d1 d2 : List (ℚ × ℚ))
    (hr1 : readInteractionFile parseFloat fileLines1 = some (header1, lc1, d1))
    (hr2 : readInteractionFile parseFloat fileLines2 = some (header2, lc2, d2))
    (hempty : lc1 = [] ∨ lc2 = []) :
    main parseFloat chi2_contingency fisher_exact critical_value statisticTest alpha
        fileLines1 fileLines2 outFileName = none ∧
    readLines parseFloat [] = some ([], []) ∧
    chisquare_test chi2_contingency [] [] critical_value = ([], 0) ∧
    fisher_exact_test fisher_exact [] [] alpha = [] := by
  refine ⟨?_, rfl, rfl, rfl⟩
  unfold main
  rw [hr1, hr2]
  rcases hempty with h | h
  · subst h
    simp
  · subst h
    cases hx : lc1.get? 0 <;> simp [hx]

/-- C9 witness: two files consisting of a single header line each; `main`
returns no output while the reader and both strategies succeed on the empty
row sequences. -/
theorem empty_rows_fatal_w :
    main (fun _ => none) (fun _ _ => none) (fun _ _ => none) 0 StatTest.fisher (1/20)
        ["header1"] ["header2"] "out.bed" = none ∧
    readLines (fun _ => (none : Option ℚ)) [] = some ([], []) ∧
    chisquare_test (fun _ _ => none) [] [] 0 = ([], 0) ∧
    fisher_exact_test (fun _ _ => none) [] [] (1/20) = [] :=
  empty_rows_fatal (fun _ => none) (fun _ _ => none) (fun _ _ => none) 0 (1/20)
    StatTest.fisher ["header1"] ["header2"] "out.bed" "header1" "header2" [] [] [] []
    rfl rfl (Or.inl rfl)

/-- C6: each triple written by `writeResult` is record A's fields tab-joined,
record B's fields tab-joined on the next line, then — exactly when a p-value is
present — a line with the p-value rendered with exactly 5 digits after the
decimal point, the block ending with one blank line; consequently the
triple-block line count (blank terminators excluded) across the three buckets
of a partitioned run is `2 * N` plus the number of non-Untested rows. -/
theorem writeResult_block_shape (line_content1 line_content2 : List Row)
    (test_result : List TestResult)
    (h1 : line_content1.length = test_result.length)
    (h2 : line_content2.length = test_result.length)
    (hp : ∀ r ∈ test_result, r.1.isSome = r.2.isSome) :
    tripleBlockLineCount (partitionResults line_content1 line_content2 test_result).rejected_h0 +
        tripleBlockLineCount (partitionResults line_content1 line_content2 test_result).non_rejected_h0 +
        tripleBlockLineCount (partitionResults line_content1 line_content2 test_result).not_tested
      = 2 * test_result.length + test_result.countP (fun r => r.1.isSome) ∧
    (∀ (a b : Row) (p : ℚ), resultBlockStr (a, b, some p) =
        String.intercalate "\t" a ++ "\n" ++ String.intercalate "\t" b ++ "\n"
          ++ format5 p ++ "\n" ++ "\n") ∧
    (∀ a b : Row, resultBlockStr (a, b, (none : Option ℚ)) =
        String.intercalate "\t" a ++ "\n" ++ String.intercalate "\t" b ++ "\n" ++ "\n") ∧
    (∀ x : ℚ, ((format5 x).data.reverse.takeWhile (fun c => c != '.')).length = 5) := by
  refine ⟨?_, fun a b p => rfl, fun a b => rfl, format5_five_decimals⟩
  rw [partitionResults_eq]
  have hmem : ∀ x ∈ test_result.zip (line_content1.zip line_content2),
      x.1.1.isSome = x.1.2.isSome := by
    intro x hx
    rcases x with ⟨r, y⟩
    exact hp r (List.of_mem_zip hx).1
  rw [block_count_core (test_result.zip (line_content1.zip line_content2)) hmem]
  rw [countP_isSome_zip test_result (line_content1.zip line_content2)
    (by rw [List.length_zip]; omega)]
  rw [List.length_zip, List.length_zip]
  omega

/-- C6 witness: on a concrete three-row partitioned run (one Rejected, one
Accepted, one Untested) the block line count is `2 * 3 + 2`, the two block
shapes hold at concrete rows, and a concrete p-value renders with 5 digits
after the decimal point. -/
theorem writeResult_block_shape_w :
    tripleBlockLineCount (partitionResults [["a"], ["b"], ["c"]] [["d"], ["e"], ["f"]]
          [(some true, some (1 : ℚ)), (some false, some (1 : ℚ)), (none, none)]).rejected_h0 +
        tripleBlockLineCount (partitionResults [["a"], ["b"], ["c"]] [["d"], ["e"], ["f"]]
          [(some true, some (1 : ℚ)), (some false, some (1 : ℚ)), (none, none)]).non_rejected_h0 +
        tripleBlockLineCount (partitionResults [["a"], ["b"], ["c"]] [["d"], ["e"], ["f"]]
          [(some true, some (1 : ℚ)), (some false, some (1 : ℚ)), (none, none)]).not_tested
      = 2 * ([(some true, some (1 : ℚ)), (some false, some (1 : ℚ)), (none, none)] : List TestResult).length
          + ([(some true, some (1 : ℚ)), (some false, some (1 : ℚ)), (none, none)] : List TestResult).countP
              (fun r => r.1.isSome) ∧
    resultBlockStr (["fa"], ["fb"], some ((1 : ℚ)/2)) =
        String.intercalate "\t" ["fa"] ++ "\n" ++ String.intercalate "\t" ["fb"] ++ "\n"
          ++ format5 ((1 : ℚ)/2) ++ "\n" ++ "\n" ∧
    resultBlockStr (["fa"], ["fb"], (none : Option ℚ)) =
        String.intercalate "\t" ["fa"] ++ "\n" ++ String.intercalate "\t" ["fb"] ++ "\n" ++ "\n" ∧
    ((format5 ((1 : ℚ)/2)).data.reverse.takeWhile (fun c => c != '.')).length = 5 :=
  ⟨(writeResult_block_shape [["a"], ["b"], ["c"]] [["d"], ["e"], ["f"]]
      [(some true, some (1 : ℚ)), (some false, some (1 : ℚ)), (none, none)]
      rfl rfl (by decide)).1,
   (writeResult_block_shape [["a"], ["b"], ["c"]] [["d"], ["e"], ["f"]]
      [(some true, some (1 : ℚ)), (some false, some (1 : ℚ)), (none, none)]
      rfl rfl (by decide)).2.1 ["fa"] ["fb"] ((1 : ℚ)/2),
   (writeResult_block_shape [["a"], ["b"], ["c"]] [["d"], ["e"], ["f"]]
      [(some true, some (1 : ℚ)), (some false, some (1 : ℚ)), (none, none)]
      rfl rfl (by decide)).2.2.1 ["fa"] ["fb"],
   (writeResult_block_shape [["a"], ["b"], ["c"]] [["d"], ["e"], ["f"]]
      [(some true, some (1 : ℚ)), (some false, some (1 : ℚ)), (none, none)]
      rfl rfl (by decide)).2.2.2 ((1 : ℚ)/2)⟩

end ChicDifferentialTest
